import Mathlib

/-!
# BookMyShow LLD — verification of the seat-reservation core

Shallow embedding of the seat / screen / booking entities and of the
booking-service orchestration (`internal/models/seat.go`, `screen.go`,
`booking.go`, `internal/services` booking service).  Go wall-clock time
is modelled by an explicit `now : Nat` parameter; the generated UUIDs by
explicit identifier arguments; the in-place pointer mutation of Go by
returning the updated value together with the `Option Err` result (the
Go methods that mutate even on the error path are the ones embedded as
`… → Option Err × …`, the ones that leave the receiver untouched on
error as `… → Except Err …`).
-/

namespace BMS

/-- `SeatStatus` from `seat.go`: AVAILABLE / BLOCKED / BOOKED. -/
inductive SeatStatus
  | available
  | blocked
  | booked
  deriving DecidableEq, Repr

/-- `SeatType` from `seat.go`. -/
inductive SeatType
  | regular
  | premium
  | vip
  | recliner
  deriving DecidableEq, Repr

/-- The sentinel error values of `internal/models/errors.go` that the
embedded operations can return. -/
inductive Err
  | seatNotFound
  | seatNotAvailable
  | seatNotBlocked
  | bookingNotPending
  | bookingExpired
  | bookingAlreadyConfirmed
  | bookingAlreadyCancelled
  | invalidBookingData
  | showNotFound
  | showNotBookable
  | screenNotFound
  | bookingNotFound
  | persistenceFailure
  deriving DecidableEq, Repr

/-- `Seat` from `seat.go` (the mutex is a Go artefact; prices are exact
rationals standing for the `float64` field). -/
structure Seat where
  id : String
  rowName : String
  number : Nat
  type : SeatType
  status : SeatStatus
  price : ℚ
  deriving DecidableEq, Repr

/-- `Seat.IsAvailable`. -/
def Seat.isAvailable (s : Seat) : Bool :=
  s.status == .available

/-- `Seat.Block`: Available → Blocked, otherwise `ErrSeatNotAvailable`
and the seat unchanged. -/
def Seat.block (s : Seat) : Except Err Seat :=
  if s.status ≠ .available then .error .seatNotAvailable
  else .ok { s with status := .blocked }

/-- `Seat.Book`: Blocked → Booked, otherwise `ErrSeatNotBlocked` and the
seat unchanged. -/
def Seat.book (s : Seat) : Except Err Seat :=
  if s.status ≠ .blocked then .error .seatNotBlocked
  else .ok { s with status := .booked }

/-- `Seat.Unblock`: Blocked → Available, otherwise `ErrSeatNotBlocked`
and the seat unchanged. -/
def Seat.unblock (s : Seat) : Except Err Seat :=
  if s.status ≠ .blocked then .error .seatNotBlocked
  else .ok { s with status := .available }

/-- The Go `map[string]*Seat` of a screen, embedded as an association
list with unique keys (Go map semantics: insertion replaces). -/
abbrev SeatMap := List (String × Seat)

/-- Go map read `m[k]`. -/
def lookupSeat : SeatMap → String → Option Seat
  | [], _ => none
  | (k, v) :: rest, id => if k = id then some v else lookupSeat rest id

/-- Go map write `m[k] = v` (replaces an existing binding, otherwise
adds one). -/
def insertSeat : SeatMap → String → Seat → SeatMap
  | [], k, v => [(k, v)]
  | (k', v') :: rest, k, v =>
      if k' = k then (k, v) :: rest else (k', v') :: insertSeat rest k v

/-- In-place mutation of the seat stored under key `id` (Go mutates
through the shared `*Seat` pointer). -/
def updateSeat : SeatMap → String → (Seat → Seat) → SeatMap
  | [], _, _ => []
  | (k, v) :: rest, id, f =>
      (if k = id then (k, f v) else (k, v)) :: updateSeat rest id f

/-- The status of the seat stored at `id`, if any. -/
def statusAt (m : SeatMap) (id : String) : Option SeatStatus :=
  (lookupSeat m id).map Seat.status

/-- `s.Seats[id].Unblock()` with the returned error ignored, as in the
rollback paths (`screen.go` rollback loop, booking-service
`rollbackSeatBlocking`): Blocked seats become Available, all other
statuses are left untouched. -/
def unblockIgnore (m : SeatMap) (id : String) : SeatMap :=
  updateSeat m id fun s =>
    match s.unblock with
    | .ok s' => s'
    | .error _ => s

/-- `seat.Book()` with the returned error only logged, as in
`ConfirmBooking`: Blocked seats become Booked, everything else is left
untouched. -/
def bookIgnore (m : SeatMap) (id : String) : SeatMap :=
  updateSeat m id fun s =>
    match s.book with
    | .ok s' => s'
    | .error _ => s

/-- `Screen` from `screen.go`. -/
structure Screen where
  id : String
  name : String
  theatreID : String
  capacity : Nat
  seats : SeatMap
  deriving DecidableEq, Repr

/-- `NewScreen` (the UUID is an explicit argument). -/
def NewScreen (id name theatreID : String) : Screen :=
  { id := id, name := name, theatreID := theatreID, capacity := 0, seats := [] }

/-- `Screen.AddSeat`: stores the seat under its ID and increments the
cached capacity unconditionally. -/
def Screen.addSeat (scr : Screen) (seat : Seat) : Screen :=
  { scr with
      seats := insertSeat scr.seats seat.id seat
      capacity := scr.capacity + 1 }

/-- `Screen.GetSeat`. -/
def Screen.getSeat (scr : Screen) (id : String) : Except Err Seat :=
  match lookupSeat scr.seats id with
  | none => .error .seatNotFound
  | some s => .ok s

/-- First pass of `Screen.BlockSeats`: walk the request in order and
report the first seat that is missing (`ErrSeatNotFound`) or not
Available (`ErrSeatNotAvailable`); pure check, no mutation. -/
def checkSeats (m : SeatMap) : List String → Option Err
  | [] => none
  | id :: rest =>
      match lookupSeat m id with
      | none => some .seatNotFound
      | some s => if !s.isAvailable then some .seatNotAvailable else checkSeats m rest

/-- The rollback loop inside `Screen.BlockSeats`: iterate over the full
request, `break` at the first index whose identifier equals the failing
identifier, unblocking (errors ignored) every identifier before it. -/
def rollbackFrom (m : SeatMap) (ids : List String) (failId : String) : SeatMap :=
  match ids with
  | [] => m
  | id :: rest =>
      if id = failId then m else rollbackFrom (unblockIgnore m id) rest failId

/-- Second pass of `Screen.BlockSeats`: block every requested seat in
request order; on an individual `Block` failure run the rollback loop
over `allIds` and return the error together with the (mutated) map. -/
def blockPass (allIds : List String) (m : SeatMap) :
    List String → Option Err × SeatMap
  | [] => (none, m)
  | id :: rest =>
      match lookupSeat m id with
      | none => (some .seatNotFound, m)
      | some s =>
          match s.block with
          | .ok s' => blockPass allIds (updateSeat m id fun _ => s') rest
          | .error e => (some e, rollbackFrom m allIds id)

/-- `Screen.BlockSeats`: first-pass validation, then the blocking pass
with its rollback-on-failure.  Returns the error (if any) together with
the screen as left in memory by the call. -/
def Screen.blockSeats (scr : Screen) (ids : List String) : Option Err × Screen :=
  match checkSeats scr.seats ids with
  | some e => (some e, scr)
  | none =>
      let (e, m) := blockPass ids scr.seats ids
      (e, { scr with seats := m })

/-- `BookingStatus` from `booking.go`. -/
inductive BookingStatus
  | pending
  | confirmed
  | cancelled
  | expired
  deriving DecidableEq, Repr

/-- `Booking` from `booking.go` (timestamps are `Nat` seconds). -/
structure Booking where
  id : String
  userID : String
  showID : String
  seatIDs : List String
  totalAmount : ℚ
  status : BookingStatus
  bookingTime : Nat
  expiryTime : Nat
  paymentID : String
  updatedAt : Nat
  deriving DecidableEq, Repr

/-- `BookingTimeout = 15 * time.Minute`, in seconds. -/
def bookingTimeout : Nat := 15 * 60

/-- `NewBooking`: validates the inputs and creates a Pending booking
whose expiry is `now + BookingTimeout`. -/
def NewBooking (id userID showID : String) (seatIDs : List String)
    (totalAmount : ℚ) (now : Nat) : Except Err Booking :=
  if userID = "" ∨ showID = "" ∨ seatIDs = [] ∨ totalAmount ≤ 0 then
    .error .invalidBookingData
  else
    .ok { id := id, userID := userID, showID := showID, seatIDs := seatIDs
          totalAmount := totalAmount, status := .pending
          bookingTime := now, expiryTime := now + bookingTimeout
          paymentID := "", updatedAt := now }

/-- `Booking.Confirm`: only from Pending; if `now` is past the expiry
deadline the booking is moved to Expired and `ErrBookingExpired` is
returned; otherwise it becomes Confirmed and records the payment. -/
def Booking.confirm (b : Booking) (paymentID : String) (now : Nat) :
    Option Err × Booking :=
  if b.status ≠ .pending then (some .bookingNotPending, b)
  else if b.expiryTime < now then (some .bookingExpired, { b with status := .expired })
  else (none, { b with status := .confirmed, paymentID := paymentID, updatedAt := now })

/-- `Booking.Cancel`: rejected from Confirmed and from Cancelled;
any other status is moved to Cancelled. -/
def Booking.cancel (b : Booking) (now : Nat) : Option Err × Booking :=
  if b.status = .confirmed then (some .bookingAlreadyConfirmed, b)
  else if b.status = .cancelled then (some .bookingAlreadyCancelled, b)
  else (none, { b with status := .cancelled, updatedAt := now })

/-- `Booking.Expire`: only from Pending; moves the booking to Expired. -/
def Booking.expire (b : Booking) (now : Nat) : Option Err × Booking :=
  if b.status ≠ .pending then (some .bookingNotPending, b)
  else (none, { b with status := .expired, updatedAt := now })

/-- `Booking.CanBeCancelled`: Pending or Confirmed. -/
def Booking.canBeCancelled (b : Booking) : Bool :=
  b.status == .pending || b.status == .confirmed

/-! ## The booking service (`BookingServiceImpl`) -/

/-- `Show` from the models package (only the fields the booking service
reads). -/
structure Show where
  id : String
  movieID : String
  theatreID : String
  screenID : String
  startTime : Nat
  endTime : Nat
  basePrice : ℚ
  deriving DecidableEq, Repr

/-- `Show.CanBeBooked`: booking is allowed until 30 minutes after the
start time. -/
def Show.canBeBooked (s : Show) (now : Nat) : Bool :=
  now < s.startTime + 30 * 60

/-- Go map read for the repositories (same semantics as `lookupSeat`). -/
def lookupBy {α : Type} : List (String × α) → String → Option α
  | [], _ => none
  | (k, v) :: rest, id => if k = id then some v else lookupBy rest id

/-- Go map write for the repositories. -/
def insertBy {α : Type} : List (String × α) → String → α → List (String × α)
  | [], k, v => [(k, v)]
  | (k', v') :: rest, k, v =>
      if k' = k then (k, v) :: rest else (k', v') :: insertBy rest k v

/-- The in-memory stores behind the booking service (show, screen and
booking repositories; movie/theatre/payment stores play no role in the
claims under verification). -/
structure SvcState where
  shows : List (String × Show)
  screens : List (String × Screen)
  bookings : List (String × Booking)
  deriving DecidableEq, Repr

/-- `BookingServiceImpl.rollbackSeatBlocking`: for every requested
identifier, `GetSeat` (missing seats skipped) then `Unblock` with the
error ignored. -/
def rollbackSeatBlocking (scr : Screen) (ids : List String) : Screen :=
  { scr with seats := ids.foldl unblockIgnore scr.seats }

/-- The pricing loop of `CreateBooking`: walk the request, failing with
`ErrSeatNotFound` on a missing seat and `ErrSeatNotAvailable` on a
non-Available one, accumulating `totalAmount += seat.GetPrice()`. -/
def sumPrices (scr : Screen) (acc : ℚ) : List String → Except Err ℚ
  | [] => .ok acc
  | id :: rest =>
      match scr.getSeat id with
      | .error e => .error e
      | .ok seat =>
          if !seat.isAvailable then .error .seatNotAvailable
          else sumPrices scr (acc + seat.price) rest

/-- `BookingServiceImpl.CreateBooking`.  `newID` stands for the UUID of
the created booking and `now` for the wall clock.  `persistFails`
injects a `BookingRepository.Create` failure (the interface allows the
store to fail; the bundled in-memory store happens never to): when set,
the persistence step returns an error exactly as in the Go error path.
Returns the result together with the stores as left in memory. -/
def createBooking (st : SvcState) (userID showID : String)
    (seatIDs : List String) (newID : String) (now : Nat)
    (persistFails : Bool) : Except Err Booking × SvcState :=
  match lookupBy st.shows showID with
  | none => (.error .showNotFound, st)
  | some shw =>
      if !shw.canBeBooked now then (.error .showNotBookable, st)
      else
        match lookupBy st.screens shw.screenID with
        | none => (.error .screenNotFound, st)
        | some screen =>
            match sumPrices screen 0 seatIDs with
            | .error e => (.error e, st)
            | .ok total =>
                match screen.blockSeats seatIDs with
                | (some e, screen') =>
                    (.error e, { st with screens := insertBy st.screens shw.screenID screen' })
                | (none, screen') =>
                    match NewBooking newID userID showID seatIDs total now with
                    | .error e =>
                        let screen'' := rollbackSeatBlocking screen' seatIDs
                        (.error e, { st with screens := insertBy st.screens shw.screenID screen'' })
                    | .ok booking =>
                        if persistFails then
                          let screen'' := rollbackSeatBlocking screen' seatIDs
                          (.error .persistenceFailure,
                           { st with screens := insertBy st.screens shw.screenID screen'' })
                        else
                          (.ok booking,
                           { st with
                               bookings := insertBy st.bookings booking.id booking
                               screens := insertBy st.screens shw.screenID screen' })

/-- `MemoryBookingRepository.Update`: fails with `ErrBookingNotFound`
when no entry exists under the booking's own ID, otherwise stores the
booking under that ID. -/
def bookingRepoUpdate (m : List (String × Booking)) (b : Booking) :
    Except Err (List (String × Booking)) :=
  if (lookupBy m b.id).isSome then .ok (insertBy m b.id b)
  else .error .bookingNotFound

/-- `BookingServiceImpl.ConfirmBooking`: fetch the booking, run
`Booking.Confirm` (whose mutation is visible in the store through the
shared pointer even on the expiry path, hence is always written back),
run the repository update, then fetch show and screen and `Book` every
held seat with per-seat errors only logged, never escalated. -/
def confirmBooking (st : SvcState) (bookingID paymentID : String) (now : Nat) :
    Option Err × SvcState :=
  match lookupBy st.bookings bookingID with
  | none => (some .bookingNotFound, st)
  | some booking =>
      match booking.confirm paymentID now with
      | (some e, booking') =>
          (some e, { st with bookings := insertBy st.bookings bookingID booking' })
      | (none, booking') =>
          let st1 := { st with bookings := insertBy st.bookings bookingID booking' }
          match bookingRepoUpdate st1.bookings booking' with
          | .error e => (some e, st1)
          | .ok bkgs =>
              let st2 := { st1 with bookings := bkgs }
              match lookupBy st2.shows booking'.showID with
              | none => (some .showNotFound, st2)
              | some shw =>
                  match lookupBy st2.screens shw.screenID with
                  | none => (some .screenNotFound, st2)
                  | some screen =>
                      let screen' := { screen with seats := booking'.seatIDs.foldl bookIgnore screen.seats }
                      (none, { st2 with screens := insertBy st2.screens shw.screenID screen' })

/-! ## Spec-side helper definitions -/

/-- Spec-side description used by the validation-pass claim: the first
seat identifier in request order that is either absent from the mapping
or not Available. -/
def firstFailingSeat (m : SeatMap) : List String → Option String
  | [] => none
  | id :: rest =>
      match lookupSeat m id with
      | none => some id
      | some s => if !s.isAvailable then some id else firstFailingSeat m rest

/-- Spec-side description used by the price-conservation claim: the sum
of the prices of the seats named by the identifier list, read in the
given seat mapping (absent identifiers contribute nothing; on a
successful booking every identifier is present). -/
def seatPriceSum (m : SeatMap) : List String → ℚ
  | [] => 0
  | id :: rest =>
      (match lookupSeat m id with
       | some s => s.price
       | none => 0) + seatPriceSum m rest

/-- The effect of an error-ignored `Unblock` on a seat status. -/
def unblockStatus : SeatStatus → SeatStatus
  | .blocked => .available
  | s => s

/-! ## Sample inputs used by the concrete witnesses -/

/-- An Available sample seat. -/
def seatAvail : Seat :=
  { id := "s1", rowName := "A", number := 1, type := .regular
    status := .available, price := 100 }

/-- A Blocked sample seat. -/
def seatBlocked : Seat :=
  { seatAvail with id := "s2", status := .blocked }

/-- A Booked sample seat. -/
def seatBooked : Seat :=
  { seatAvail with id := "s3", status := .booked }

/-- A screen holding the single Available seat `s1`. -/
def sampleScreen : Screen :=
  (NewScreen "scr1" "Screen 1" "th1").addSeat seatAvail

/-- A screen holding Available `s1` and Blocked `s2`. -/
def mixedScreen : Screen :=
  ((NewScreen "scr2" "Screen 2" "th1").addSeat seatAvail).addSeat seatBlocked

/-- A show on screen `scr1`, starting at t = 3600. -/
def sampleShow : Show :=
  { id := "sh1", movieID := "m1", theatreID := "th1", screenID := "scr1"
    startTime := 3600, endTime := 10800, basePrice := 100 }

/-- A Pending sample booking for seat `s1`, expiring at t = 900. -/
def pendingBooking : Booking :=
  { id := "b1", userID := "u1", showID := "sh1", seatIDs := ["s1"]
    totalAmount := 100, status := .pending, bookingTime := 0
    expiryTime := 900, paymentID := "", updatedAt := 0 }

/-- The sample booking in Confirmed state. -/
def confirmedBooking : Booking :=
  { pendingBooking with status := .confirmed }

/-- The sample booking in Expired state. -/
def expiredBooking : Booking :=
  { pendingBooking with status := .expired }

/-- The sample booking as left by a successful `Confirm("p1")` at t = 100. -/
def confirmedSample : Booking :=
  { pendingBooking with status := .confirmed, paymentID := "p1", updatedAt := 100 }

/-- A service state with the sample show, screen and no bookings. -/
def sampleState : SvcState :=
  { shows := [("sh1", sampleShow)], screens := [("scr1", sampleScreen)]
    bookings := [] }

/-- A service state that also holds the Pending sample booking. -/
def bookedState : SvcState :=
  { shows := [("sh1", sampleShow)], screens := [("scr1", sampleScreen)]
    bookings := [("b1", pendingBooking)] }

/-! ## Map lemmas -/

theorem lookupSeat_insertSeat (m : SeatMap) (k id : String) (v : Seat) :
    lookupSeat (insertSeat m k v) id = if k = id then some v else lookupSeat m id := by
  induction m with
  | nil => simp [insertSeat, lookupSeat]
  | cons a rest ih =>
      obtain ⟨ak, av⟩ := a
      by_cases h1 : ak = k
      · subst h1
        simp only [insertSeat, if_pos rfl]
        by_cases h2 : ak = id <;> simp [lookupSeat, h2]
      · simp only [insertSeat, if_neg h1]
        by_cases h2 : ak = id
        · subst h2
          have h3 : ¬ k = ak := fun h => h1 h.symm
          simp [lookupSeat, h3]
        · simp [lookupSeat, h2, ih]

theorem lookupSeat_updateSeat (m : SeatMap) (k id : String) (f : Seat → Seat) :
    lookupSeat (updateSeat m k f) id =
      if k = id then (lookupSeat m id).map f else lookupSeat m id := by
  induction m with
  | nil => simp [updateSeat, lookupSeat]
  | cons a rest ih =>
      obtain ⟨ak, av⟩ := a
      by_cases h1 : ak = k
      · subst h1
        simp only [updateSeat, if_pos rfl]
        by_cases h2 : ak = id <;> simp [lookupSeat, h2, ih]
      · simp only [updateSeat, if_neg h1]
        by_cases h2 : ak = id
        · subst h2
          have h3 : ¬ k = ak := fun h => h1 h.symm
          simp [lookupSeat, h3]
        · simp [lookupSeat, h2, ih]

theorem lookupBy_insertBy_self {α : Type} (m : List (String × α)) (k : String) (v : α) :
    lookupBy (insertBy m k v) k = some v := by
  induction m with
  | nil => simp [insertBy, lookupBy]
  | cons a rest ih =>
      obtain ⟨ak, av⟩ := a
      by_cases h1 : ak = k
      · subst h1
        simp [insertBy, lookupBy]
      · simp [insertBy, lookupBy, h1, ih]

/-! ## Seat-operation lemmas -/

theorem Seat.block_ok {s s' : Seat} (h : s.block = .ok s') :
    s.status = .available ∧ s' = { s with status := .blocked } := by
  unfold Seat.block at h
  split at h
  · cases h
  · rename_i hst
    rw [not_ne_iff] at hst
    cases h
    exact ⟨hst, rfl⟩

theorem Seat.book_ok {s s' : Seat} (h : s.book = .ok s') :
    s.status = .blocked ∧ s' = { s with status := .booked } := by
  unfold Seat.book at h
  split at h
  · cases h
  · rename_i hst
    rw [not_ne_iff] at hst
    cases h
    exact ⟨hst, rfl⟩

theorem Seat.unblock_ok {s s' : Seat} (h : s.unblock = .ok s') :
    s.status = .blocked ∧ s' = { s with status := .available } := by
  unfold Seat.unblock at h
  split at h
  · cases h
  · rename_i hst
    rw [not_ne_iff] at hst
    cases h
    exact ⟨hst, rfl⟩

theorem unblock_keep_status (s : Seat) :
    (match s.unblock with
     | .ok s' => s'
     | .error _ => s).status = unblockStatus s.status := by
  cases hs : s.status <;> simp [Seat.unblock, hs, unblockStatus]

theorem statusAt_unblockIgnore (m : SeatMap) (k id : String) :
    statusAt (unblockIgnore m k) id =
      if k = id then (statusAt m id).map unblockStatus else statusAt m id := by
  unfold unblockIgnore statusAt
  rw [lookupSeat_updateSeat]
  by_cases h : k = id
  · subst h
    cases hl : lookupSeat m k <;> simp [unblock_keep_status]
  · simp [h]

theorem statusAt_foldl_unblockIgnore_avail (ids : List String) (m : SeatMap)
    (id : String) (h : statusAt m id = some .available) :
    statusAt (ids.foldl unblockIgnore m) id = some .available := by
  induction ids generalizing m with
  | nil => exact h
  | cons j rest ih =>
      simp only [List.foldl_cons]
      apply ih
      rw [statusAt_unblockIgnore]
      by_cases hj : j = id <;> simp [hj, h, unblockStatus]

theorem statusAt_foldl_unblockIgnore_mem (ids : List String) (m : SeatMap)
    (id : String) (hmem : id ∈ ids) (h : statusAt m id = some .blocked) :
    statusAt (ids.foldl unblockIgnore m) id = some .available := by
  induction ids generalizing m with
  | nil => cases hmem
  | cons j rest ih =>
      simp only [List.foldl_cons]
      by_cases hj : j = id
      · subst hj
        apply statusAt_foldl_unblockIgnore_avail
        rw [statusAt_unblockIgnore]
        simp [h, unblockStatus]
      · have hmem2 : id ∈ rest := by
          cases hmem with
          | head => exact absurd rfl hj
          | tail _ h2 => exact h2
        exact ih (unblockIgnore m j) hmem2
          (by rw [statusAt_unblockIgnore]; simp [hj, h])

/-! ## Blocking-pass lemmas -/

theorem blockPass_none_pres (A : List String) (l : List String) (m m' : SeatMap)
    (k : String) (h : blockPass A m l = (none, m'))
    (hk : statusAt m k = some .blocked) : statusAt m' k = some .blocked := by
  induction l generalizing m with
  | nil =>
      simp only [blockPass] at h
      cases h
      exact hk
  | cons id rest ih =>
      simp only [blockPass] at h
      cases hl : lookupSeat m id with
      | none => simp only [hl] at h; cases h
      | some s =>
          simp only [hl] at h
          cases hb : s.block with
          | error e => simp only [hb] at h; cases h
          | ok s' =>
              simp only [hb] at h
              have hne : ¬ id = k := by
                intro hik
                subst hik
                have : s.status = .blocked := by
                  unfold statusAt at hk
                  rw [hl] at hk
                  simpa using hk
                obtain ⟨hav, _⟩ := Seat.block_ok hb
                rw [hav] at this
                cases this
              apply ih _ h
              unfold statusAt
              rw [lookupSeat_updateSeat, if_neg hne]
              exact hk

theorem blockPass_none_mem (A : List String) (l : List String) (m m' : SeatMap)
    (h : blockPass A m l = (none, m')) :
    ∀ id ∈ l, statusAt m' id = some .blocked := by
  induction l generalizing m with
  | nil => intro id hid; cases hid
  | cons j rest ih =>
      intro id hid
      simp only [blockPass] at h
      cases hl : lookupSeat m j with
      | none => simp only [hl] at h; cases h
      | some s =>
          simp only [hl] at h
          cases hb : s.block with
          | error e => simp only [hb] at h; cases h
          | ok s' =>
              simp only [hb] at h
              obtain ⟨hav, hs'⟩ := Seat.block_ok hb
              cases hid with
              | head =>
                  apply blockPass_none_pres A rest _ _ _ h
                  unfold statusAt
                  rw [lookupSeat_updateSeat, if_pos rfl, hl]
                  simp [hs']
              | tail _ h2 => exact ih _ h id h2

theorem blockSeats_none (scr scr' : Screen) (ids : List String)
    (h : scr.blockSeats ids = (none, scr')) :
    ∀ id ∈ ids, statusAt scr'.seats id = some .blocked := by
  unfold Screen.blockSeats at h
  cases hc : checkSeats scr.seats ids with
  | some e => rw [hc] at h; cases h
  | none =>
      rw [hc] at h
      cases hbp : blockPass ids scr.seats ids with
      | mk e m =>
          rw [hbp] at h
          simp only at h
          cases h
          exact blockPass_none_mem ids ids scr.seats m hbp

/-! ## Validation-pass lemma -/

theorem checkSeats_of_firstFailing (m : SeatMap) (ids : List String) (fid : String)
    (h : firstFailingSeat m ids = some fid) :
    checkSeats m ids =
      some (if lookupSeat m fid = none then Err.seatNotFound else Err.seatNotAvailable) := by
  induction ids with
  | nil => cases h
  | cons id rest ih =>
      simp only [firstFailingSeat] at h
      simp only [checkSeats]
      cases hl : lookupSeat m id with
      | none =>
          rw [hl] at h
          cases h
          rw [hl]
          simp
      | some s =>
          rw [hl] at h
          by_cases ha : s.isAvailable
          · simp [ha] at h
            simp [ha]
            exact ih h
          · simp [ha] at h
            cases h
            rw [hl]
            simp [ha]

/-! ## Pricing and booking-creation lemmas -/

theorem sumPrices_ok (scr : Screen) (ids : List String) :
    ∀ acc t, sumPrices scr acc ids = .ok t → t = acc + seatPriceSum scr.seats ids := by
  induction ids with
  | nil =>
      intro acc t h
      simp only [sumPrices] at h
      cases h
      simp [seatPriceSum]
  | cons id rest ih =>
      intro acc t h
      simp only [sumPrices, Screen.getSeat] at h
      cases hl : lookupSeat scr.seats id with
      | none => rw [hl] at h; cases h
      | some s =>
          rw [hl] at h
          by_cases ha : s.isAvailable
          · simp [ha] at h
            have := ih (acc + s.price) t h
            simp only [seatPriceSum]
            rw [hl, this]
            ring
          · simp [ha] at h

theorem NewBooking_ok {id userID showID : String} {seatIDs : List String}
    {totalAmount : ℚ} {now : Nat} {b : Booking}
    (h : NewBooking id userID showID seatIDs totalAmount now = .ok b) :
    b = { id := id, userID := userID, showID := showID, seatIDs := seatIDs
          totalAmount := totalAmount, status := .pending
          bookingTime := now, expiryTime := now + bookingTimeout
          paymentID := "", updatedAt := now } := by
  unfold NewBooking at h
  split at h
  · cases h
  · cases h
    rfl

theorem Booking.confirm_none {b b' : Booking} {pid : String} {now : Nat}
    (h : b.confirm pid now = (none, b')) :
    b.status = .pending ∧ ¬ b.expiryTime < now ∧
      b' = { b with status := .confirmed, paymentID := pid, updatedAt := now } := by
  unfold Booking.confirm at h
  split at h
  · cases h
  · rename_i hp
    rw [not_ne_iff] at hp
    split at h
    · cases h
    · rename_i he
      cases h
      exact ⟨hp, he, rfl⟩

theorem NewBooking_sample_eval :
    NewBooking "b1" "u1" "sh1" ["s1"] 100 0 = .ok pendingBooking := by
  have hcond : ¬("u1" = "" ∨ "sh1" = "" ∨ (["s1"] : List String) = ([] : List String) ∨
      (100 : ℚ) ≤ 0) := by
    rintro (h | h | h | h)
    · exact absurd h (by decide)
    · exact absurd h (by decide)
    · exact absurd h (by decide)
    · exact absurd h (by norm_num)
  unfold NewBooking
  rw [if_neg hcond]
  rfl

theorem Booking.confirm_totalAmount (b : Booking) (pid : String) (n : Nat) :
    ((b.confirm pid n).2).totalAmount = b.totalAmount := by
  unfold Booking.confirm
  split
  · rfl
  · split <;> rfl

theorem Booking.cancel_totalAmount (b : Booking) (n : Nat) :
    ((b.cancel n).2).totalAmount = b.totalAmount := by
  unfold Booking.cancel
  split
  · rfl
  · split <;> rfl

theorem Booking.expire_totalAmount (b : Booking) (n : Nat) :
    ((b.expire n).2).totalAmount = b.totalAmount := by
  unfold Booking.expire
  split <;> rfl

/-! ## Capacity lemmas -/

theorem length_insertSeat (m : SeatMap) (k : String) (v : Seat) :
    (insertSeat m k v).length =
      if (lookupSeat m k).isSome then m.length else m.length + 1 := by
  induction m with
  | nil => simp [insertSeat, lookupSeat]
  | cons a rest ih =>
      obtain ⟨ak, av⟩ := a
      by_cases h1 : ak = k
      · subst h1
        simp [insertSeat, lookupSeat]
      · simp only [insertSeat, if_neg h1, List.length_cons, ih, lookupSeat]
        by_cases h2 : (lookupSeat rest k).isSome <;> simp [h2]

theorem addSeats_capacity (scr : Screen) (ss : List Seat) :
    (ss.foldl Screen.addSeat scr).capacity = scr.capacity + ss.length := by
  induction ss generalizing scr with
  | nil => simp
  | cons s rest ih =>
      simp only [List.foldl_cons, List.length_cons, ih, Screen.addSeat]
      omega

theorem addSeats_size (scr : Screen) (ss : List Seat)
    (hnd : (ss.map Seat.id).Nodup)
    (hfresh : ∀ s ∈ ss, lookupSeat scr.seats s.id = none)
    (hinv : scr.capacity = scr.seats.length) :
    (ss.foldl Screen.addSeat scr).capacity = (ss.foldl Screen.addSeat scr).seats.length := by
  induction ss generalizing scr with
  | nil => exact hinv
  | cons s rest ih =>
      rw [List.map_cons, List.nodup_cons] at hnd
      obtain ⟨hni, hnd2⟩ := hnd
      simp only [List.foldl_cons]
      apply ih _ hnd2
      · intro s2 hs2
        simp only [Screen.addSeat]
        rw [lookupSeat_insertSeat]
        have hneq : ¬ s.id = s2.id := fun h =>
          hni (h ▸ List.mem_map_of_mem Seat.id hs2)
        rw [if_neg hneq]
        exact hfresh s2 (List.mem_cons_of_mem _ hs2)
      · simp only [Screen.addSeat]
        rw [length_insertSeat, hfresh s (List.mem_cons_self s rest)]
        simp [hinv]

/-! ## Claim theorems -/

/-- C1: the all-or-nothing hold FAILS on the code for duplicate
identifiers.  On a screen whose only seat `s1` is Available,
`BlockSeats(["s1", "s1"])` passes the validation pass, blocks `s1`,
fails blocking the duplicate, and the rollback loop breaks at the first
occurrence of the failing identifier without unblocking anything: the
call returns `ErrSeatNotAvailable` with `s1` left Blocked, a partial
hold, although `s1` was Available before the call. -/
theorem C1_blockSeats_duplicate_partial_hold :
    (sampleScreen.blockSeats ["s1", "s1"]).1 = some Err.seatNotAvailable ∧
    statusAt sampleScreen.seats "s1" = some SeatStatus.available ∧
    statusAt (sampleScreen.blockSeats ["s1", "s1"]).2.seats "s1" =
      some SeatStatus.blocked :=
  ⟨rfl, rfl, rfl⟩

/-- C2 counterexample: `Cancel` on an Expired booking SUCCEEDS and moves
the status to Cancelled, so Expired is not a terminal state and the
claim as stated is false. -/
theorem C2_cancel_on_expired_succeeds :
    (expiredBooking.cancel 1000).1 = none ∧
    (expiredBooking.cancel 1000).2.status = BookingStatus.cancelled :=
  ⟨rfl, rfl⟩

/-- C2 (amended): for a booking in Confirmed or Cancelled status, every
subsequent Confirm, Cancel or Expire returns an error and leaves the
booking unchanged; for a booking in Expired status, Confirm and Expire
return an error and leave it unchanged, but Cancel succeeds and moves
the status to Cancelled. -/
theorem C2_terminal_states_amended (b : Booking) (pid : String) (now : Nat) :
    (b.status = .confirmed ∨ b.status = .cancelled →
       (b.confirm pid now).1.isSome ∧ (b.confirm pid now).2 = b ∧
       (b.cancel now).1.isSome ∧ (b.cancel now).2 = b ∧
       (b.expire now).1.isSome ∧ (b.expire now).2 = b) ∧
    (b.status = .expired →
       (b.confirm pid now).1 = some Err.bookingNotPending ∧ (b.confirm pid now).2 = b ∧
       (b.expire now).1 = some Err.bookingNotPending ∧ (b.expire now).2 = b ∧
       (b.cancel now).1 = none ∧ (b.cancel now).2.status = .cancelled) := by
  constructor
  · rintro (h | h) <;> simp [Booking.confirm, Booking.cancel, Booking.expire, h]
  · intro h
    simp [Booking.confirm, Booking.cancel, Booking.expire, h]

/-- C2 witness: a Confirmed booking rejects Cancel, while an Expired
booking accepts it. -/
theorem C2_terminal_states_amended_witness :
    (confirmedBooking.cancel 5).1.isSome ∧
    (expiredBooking.cancel 5).1 = none := by
  have h1 := C2_terminal_states_amended confirmedBooking "p" 5
  have h2 := C2_terminal_states_amended expiredBooking "p" 5
  exact ⟨(h1.1 (Or.inl rfl)).2.2.1, (h2.2 rfl).2.2.2.2.1⟩

/-- C3: a Pending booking whose expiry deadline lies before the current
time is moved to Expired by `Confirm` and the call fails with
`ErrBookingExpired`, for every payment identifier. -/
theorem C3_expiry_precedence (b : Booking) (pid : String) (now : Nat)
    (hp : b.status = .pending) (he : b.expiryTime < now) :
    (b.confirm pid now).1 = some Err.bookingExpired ∧
    (b.confirm pid now).2.status = BookingStatus.expired := by
  simp [Booking.confirm, hp, he]

/-- C3 witness: the Pending sample booking (deadline 900) confirmed at
t = 1000 expires. -/
theorem C3_expiry_precedence_witness :
    (pendingBooking.confirm "p1" 1000).1 = some Err.bookingExpired ∧
    (pendingBooking.confirm "p1" 1000).2.status = BookingStatus.expired :=
  C3_expiry_precedence pendingBooking "p1" 1000 rfl (by decide)

/-- C5: when some requested seat fails the first-pass check,
`BlockSeats` aborts with `ErrSeatNotFound` if the first failing seat in
request order is absent, `ErrSeatNotAvailable` if it is present but not
Available, and returns the screen completely unchanged. -/
theorem C5_validation_pass_no_mutation (scr : Screen) (ids : List String)
    (fid : String) (h : firstFailingSeat scr.seats ids = some fid) :
    scr.blockSeats ids =
      (some (if lookupSeat scr.seats fid = none then Err.seatNotFound
             else Err.seatNotAvailable),
       scr) := by
  unfold Screen.blockSeats
  rw [checkSeats_of_firstFailing scr.seats ids fid h]

/-- C5 witness: requesting Available `s1` and Blocked `s2` fails with
`ErrSeatNotAvailable` and mutates nothing. -/
theorem C5_validation_pass_no_mutation_witness :
    mixedScreen.blockSeats ["s1", "s2"] =
      (some (if lookupSeat mixedScreen.seats "s2" = none then Err.seatNotFound
             else Err.seatNotAvailable),
       mixedScreen) :=
  C5_validation_pass_no_mutation mixedScreen ["s1", "s2"] "s2" rfl

/-- C7: a seat status changes only along Available→Blocked (`Block`),
Blocked→Booked (`Book`) and Blocked→Available (`Unblock`); `Book` on an
Available seat fails with `ErrSeatNotBlocked`; no operation leaves
Booked, and none goes from Available to Booked directly. -/
theorem C7_seat_lifecycle (s : Seat) :
    (∀ s', s.block = .ok s' → s.status = .available ∧ s' = { s with status := .blocked }) ∧
    (∀ s', s.book = .ok s' → s.status = .blocked ∧ s' = { s with status := .booked }) ∧
    (∀ s', s.unblock = .ok s' → s.status = .blocked ∧ s' = { s with status := .available }) ∧
    (s.status = .available → s.book = .error Err.seatNotBlocked) ∧
    (s.status = .booked →
       s.block = .error Err.seatNotAvailable ∧
       s.book = .error Err.seatNotBlocked ∧
       s.unblock = .error Err.seatNotBlocked) := by
  refine ⟨fun s' h => Seat.block_ok h, fun s' h => Seat.book_ok h,
         fun s' h => Seat.unblock_ok h, fun h => ?_, fun h => ?_⟩
  · simp [Seat.book, h]
  · exact ⟨by simp [Seat.block, h], by simp [Seat.book, h], by simp [Seat.unblock, h]⟩

/-- C7 witness: `Book` on an Available seat and `Block` on a Booked seat
both fail with the respective state-conflict errors. -/
theorem C7_seat_lifecycle_witness :
    seatAvail.book = .error Err.seatNotBlocked ∧
    seatBooked.block = .error Err.seatNotAvailable :=
  ⟨(C7_seat_lifecycle seatAvail).2.2.2.1 rfl,
   ((C7_seat_lifecycle seatBooked).2.2.2.2 rfl).1⟩

/-- C9 counterexample: adding the same seat twice leaves Capacity at 2
while the Seats mapping has a single entry, so Capacity does not equal
the mapping size after a duplicate `AddSeat`. -/
theorem C9_capacity_duplicate_counterexample :
    (((NewScreen "scr" "S" "T").addSeat seatAvail).addSeat seatAvail).capacity = 2 ∧
    (((NewScreen "scr" "S" "T").addSeat seatAvail).addSeat seatAvail).seats.length = 1 :=
  ⟨rfl, rfl⟩

/-- C9 (amended): after any sequence of `AddSeat` calls, Capacity equals
the number of calls; when the added seats carry pairwise-distinct
identifiers this also equals the number of entries in the mapping, but a
call whose seat identifier is already present increments Capacity
without growing the mapping. -/
theorem C9_capacity_amended (i n t : String) (ss : List Seat) :
    (ss.foldl Screen.addSeat (NewScreen i n t)).capacity = ss.length ∧
    ((ss.map Seat.id).Nodup →
      (ss.foldl Screen.addSeat (NewScreen i n t)).capacity =
        (ss.foldl Screen.addSeat (NewScreen i n t)).seats.length) := by
  constructor
  · rw [addSeats_capacity]
    simp [NewScreen]
  · intro hnd
    apply addSeats_size _ _ hnd
    · intro s hs
      simp [NewScreen, lookupSeat]
    · simp [NewScreen]

/-- C9 witness: two seats with distinct identifiers give Capacity 2 and
mapping size 2. -/
theorem C9_capacity_amended_witness :
    ([seatAvail, seatBlocked].foldl Screen.addSeat (NewScreen "s" "n" "t")).capacity = 2 ∧
    ([seatAvail, seatBlocked].foldl Screen.addSeat (NewScreen "s" "n" "t")).capacity =
      ([seatAvail, seatBlocked].foldl Screen.addSeat (NewScreen "s" "n" "t")).seats.length := by
  have h := C9_capacity_amended "s" "n" "t" [seatAvail, seatBlocked]
  exact ⟨h.1, h.2 (by decide)⟩

/-- C10: a Confirmed booking reports `CanBeCancelled() = true`, yet
`Cancel()` on it fails with `ErrBookingAlreadyConfirmed` and leaves the
booking unchanged. -/
theorem C10_canBeCancelled_vs_cancel (b : Booking) (now : Nat)
    (h : b.status = .confirmed) :
    b.canBeCancelled = true ∧
    (b.cancel now).1 = some Err.bookingAlreadyConfirmed ∧
    (b.cancel now).2 = b := by
  simp [Booking.canBeCancelled, Booking.cancel, h]

/-- C10 witness: the Confirmed sample booking. -/
theorem C10_canBeCancelled_vs_cancel_witness :
    confirmedBooking.canBeCancelled = true ∧
    (confirmedBooking.cancel 5).1 = some Err.bookingAlreadyConfirmed ∧
    (confirmedBooking.cancel 5).2 = confirmedBooking :=
  C10_canBeCancelled_vs_cancel confirmedBooking 5 rfl

/-- C4: when `BlockSeats` succeeded but building the booking record or
persisting it fails, `CreateBooking` returns that error and every seat
it had just blocked is back to Available in the stored screen when the
call returns. -/
theorem C4_compensation_on_persist_failure
    (st : SvcState) (userID showID newID : String) (seatIDs : List String)
    (now : Nat) (persistFails : Bool) (shw : Show) (screen screen1 : Screen)
    (total : ℚ)
    (h1 : lookupBy st.shows showID = some shw)
    (h2 : shw.canBeBooked now = true)
    (h3 : lookupBy st.screens shw.screenID = some screen)
    (h4 : sumPrices screen 0 seatIDs = .ok total)
    (h5 : screen.blockSeats seatIDs = (none, screen1))
    (h6 : (∃ e, NewBooking newID userID showID seatIDs total now = .error e) ∨
          persistFails = true) :
    (∀ e, NewBooking newID userID showID seatIDs total now = .error e →
       (createBooking st userID showID seatIDs newID now persistFails).1 = .error e) ∧
    ((∃ b0, NewBooking newID userID showID seatIDs total now = .ok b0) →
       (createBooking st userID showID seatIDs newID now persistFails).1 =
         .error Err.persistenceFailure) ∧
    ∃ scr2,
      lookupBy (createBooking st userID showID seatIDs newID now persistFails).2.screens
          shw.screenID = some scr2 ∧
      ∀ id ∈ seatIDs, statusAt scr2.seats id = some SeatStatus.available := by
  have hall := blockSeats_none screen screen1 seatIDs h5
  have hroll : ∀ id ∈ seatIDs,
      statusAt (rollbackSeatBlocking screen1 seatIDs).seats id =
        some SeatStatus.available := by
    intro id hid
    unfold rollbackSeatBlocking
    exact statusAt_foldl_unblockIgnore_mem seatIDs screen1.seats id hid (hall id hid)
  cases hnb : NewBooking newID userID showID seatIDs total now with
  | error e0 =>
      have hres : createBooking st userID showID seatIDs newID now persistFails =
          (.error e0,
           { st with screens := insertBy st.screens shw.screenID (rollbackSeatBlocking screen1 seatIDs) }) := by
        simp [createBooking, h1, h2, h3, h4, h5, hnb]
      refine ⟨?_, ?_, ?_⟩
      · intro e he
        cases he
        rw [hres]
      · rintro ⟨b0, hb0⟩
        cases hb0
      · rw [hres]
        exact ⟨_, lookupBy_insertBy_self _ _ _, hroll⟩
  | ok b0 =>
      have hpf : persistFails = true := by
        rcases h6 with ⟨e, he⟩ | hp
        · rw [hnb] at he; cases he
        · exact hp
      subst hpf
      have hres : createBooking st userID showID seatIDs newID now true =
          (.error Err.persistenceFailure,
           { st with screens := insertBy st.screens shw.screenID (rollbackSeatBlocking screen1 seatIDs) }) := by
        simp [createBooking, h1, h2, h3, h4, h5, hnb]
      refine ⟨?_, ?_, ?_⟩
      · intro e he
        cases he
      · intro _
        rw [hres]
      · rw [hres]
        exact ⟨_, lookupBy_insertBy_self _ _ _, hroll⟩

/-- C4 witness: persistence failure injected after a successful hold of
`s1`; the call fails with the persistence error and `s1` is observed
Available in the stored screen. -/
theorem C4_compensation_on_persist_failure_witness :
    (createBooking sampleState "u1" "sh1" ["s1"] "b1" 0 true).1 =
      .error Err.persistenceFailure ∧
    (lookupBy (createBooking sampleState "u1" "sh1" ["s1"] "b1" 0 true).2.screens
        sampleShow.screenID).map (fun scr => statusAt scr.seats "s1") =
      some (some SeatStatus.available) := by
  have h4w : sumPrices sampleScreen 0 ["s1"] = .ok 100 := by
    norm_num [sumPrices, Screen.getSeat, sampleScreen, NewScreen, Screen.addSeat,
      insertSeat, lookupSeat, seatAvail, Seat.isAvailable]
  have h := C4_compensation_on_persist_failure sampleState "u1" "sh1" "b1" ["s1"] 0 true
      sampleShow sampleScreen (sampleScreen.blockSeats ["s1"]).2 100
      rfl rfl rfl h4w rfl (Or.inr rfl)
  obtain ⟨scr2, hl, hava⟩ := h.2.2
  refine ⟨h.2.1 ⟨pendingBooking, NewBooking_sample_eval⟩, ?_⟩
  rw [hl]
  simp [hava "s1" (by simp)]

/-- C6: a successful `CreateBooking` returns a booking whose
`TotalAmount` is the sum of the requested seats' prices read from the
screen at hold time, and no booking operation (`Confirm`, `Cancel`,
`Expire`) ever changes `TotalAmount`. -/
theorem C6_price_conservation
    (st st' : SvcState) (userID showID newID : String) (seatIDs : List String)
    (now : Nat) (shw : Show) (screen : Screen) (b : Booking)
    (h1 : lookupBy st.shows showID = some shw)
    (h3 : lookupBy st.screens shw.screenID = some screen)
    (hok : createBooking st userID showID seatIDs newID now false = (.ok b, st')) :
    b.totalAmount = seatPriceSum screen.seats seatIDs ∧
    b.seatIDs = seatIDs ∧
    (∀ pid n, ((b.confirm pid n).2).totalAmount = b.totalAmount) ∧
    (∀ n, ((b.cancel n).2).totalAmount = b.totalAmount) ∧
    (∀ n, ((b.expire n).2).totalAmount = b.totalAmount) := by
  simp only [createBooking, h1, h3] at hok
  by_cases hcb : shw.canBeBooked now
  · simp only [hcb, Bool.not_true, Bool.false_eq_true, if_false] at hok
    cases hsp : sumPrices screen 0 seatIDs with
    | error e => simp only [hsp] at hok; simp at hok
    | ok total =>
        simp only [hsp] at hok
        cases hbs : screen.blockSeats seatIDs with
        | mk oe scr1 =>
            cases oe with
            | some e => simp only [hbs] at hok; simp at hok
            | none =>
                simp only [hbs] at hok
                cases hnb : NewBooking newID userID showID seatIDs total now with
                | error e => simp only [hnb] at hok; simp at hok
                | ok b0 =>
                    simp only [hnb, Bool.false_eq_true, if_false,
                      Prod.mk.injEq, Except.ok.injEq] at hok
                    obtain ⟨hb, -⟩ := hok
                    subst hb
                    have hrec := NewBooking_ok hnb
                    have htot := sumPrices_ok screen seatIDs 0 total hsp
                    refine ⟨?_, ?_, fun pid n => Booking.confirm_totalAmount _ pid n,
                           fun n => Booking.cancel_totalAmount _ n,
                           fun n => Booking.expire_totalAmount _ n⟩
                    · rw [hrec]
                      simpa using htot
                    · rw [hrec]
  · rw [Bool.not_eq_true] at hcb
    simp only [hcb, Bool.not_false, if_true] at hok
    simp at hok

/-- C6 witness: booking seat `s1` (price 100) at t = 0 yields
`TotalAmount = 100 = seatPriceSum`, and a later `Confirm` leaves the
amount unchanged. -/
theorem C6_price_conservation_witness :
    pendingBooking.totalAmount = seatPriceSum sampleScreen.seats ["s1"] ∧
    ((pendingBooking.confirm "p1" 100).2).totalAmount = pendingBooking.totalAmount := by
  have h1c : (createBooking sampleState "u1" "sh1" ["s1"] "b1" 0 false).1 =
      .ok pendingBooking := by
    norm_num [createBooking, sampleState, sampleShow, sampleScreen, NewScreen,
      Screen.addSeat, insertSeat, lookupBy, Show.canBeBooked, sumPrices,
      Screen.getSeat, lookupSeat, seatAvail, Seat.isAvailable, Screen.blockSeats,
      checkSeats, blockPass, Seat.block, updateSeat, insertBy, NewBooking_sample_eval]
  have hok : createBooking sampleState "u1" "sh1" ["s1"] "b1" 0 false =
      (.ok pendingBooking, (createBooking sampleState "u1" "sh1" ["s1"] "b1" 0 false).2) := by
    rw [← h1c]
  have h := C6_price_conservation sampleState
      (createBooking sampleState "u1" "sh1" ["s1"] "b1" 0 false).2
      "u1" "sh1" "b1" ["s1"] 0 sampleShow sampleScreen pendingBooking
      rfl rfl hok
  exact ⟨h.1, h.2.2.1 "p1" 100⟩

/-- C8: when the booking record's `Confirm` succeeds and the repository
operations succeed, `ConfirmBooking` returns success and the booking
stays Confirmed regardless of the statuses of the held seats — per-seat
`Book` failures are absorbed, never escalated. -/
theorem C8_seat_failures_absorbed
    (st : SvcState) (bookingID pid : String) (now : Nat)
    (booking booking1 : Booking) (shw : Show) (screen : Screen)
    (h1 : lookupBy st.bookings bookingID = some booking)
    (hkey : booking.id = bookingID)
    (h2 : booking.confirm pid now = (none, booking1))
    (h3 : lookupBy st.shows booking1.showID = some shw)
    (h4 : lookupBy st.screens shw.screenID = some screen) :
    (confirmBooking st bookingID pid now).1 = none ∧
    lookupBy (confirmBooking st bookingID pid now).2.bookings bookingID = some booking1 ∧
    booking1.status = BookingStatus.confirmed := by
  obtain ⟨hp, hne, hb1⟩ := Booking.confirm_none h2
  have hid1 : booking1.id = bookingID := by rw [hb1]; exact hkey
  have hupd : bookingRepoUpdate (insertBy st.bookings bookingID booking1) booking1 =
      .ok (insertBy (insertBy st.bookings bookingID booking1) booking1.id booking1) := by
    unfold bookingRepoUpdate
    rw [hid1, lookupBy_insertBy_self]
    simp
  have hres : confirmBooking st bookingID pid now =
      (none,
       { st with
           bookings := insertBy (insertBy st.bookings bookingID booking1) booking1.id booking1
           screens := insertBy st.screens shw.screenID { screen with seats := booking1.seatIDs.foldl bookIgnore screen.seats } }) := by
    simp [confirmBooking, h1, h2, hupd, h3, h4]
  rw [hres]
  refine ⟨rfl, ?_, ?_⟩
  · rw [hid1]
    exact lookupBy_insertBy_self _ _ _
  · rw [hb1]

/-- C8 witness: confirming the Pending sample booking while its held
seat `s1` is still Available (so the per-seat `Book` call fails) still
succeeds and leaves the booking Confirmed. -/
theorem C8_seat_failures_absorbed_witness :
    (confirmBooking bookedState "b1" "p1" 100).1 = none ∧
    lookupBy (confirmBooking bookedState "b1" "p1" 100).2.bookings "b1" =
      some confirmedSample ∧
    confirmedSample.status = BookingStatus.confirmed :=
  C8_seat_failures_absorbed bookedState "b1" "p1" 100 pendingBooking confirmedSample
    sampleShow sampleScreen rfl rfl rfl rfl rfl

end BMS
